import Mathlib

/-!
Shallow embedding of the Crafty product-catalog backend (`src/main.py`).

The HTTP handlers `list_products`, `get_product`, `create_product` and
`seed_products` are translated as pure functions over an explicit store
state (a list of raw documents).  Numeric values are modelled as `Rat`;
HTTP failures are modelled as `Except Nat` carrying the status code.
Parts of the repository that are not present under `src/` (the
`database.py` helpers `get_documents` / `create_document`, the
`schemas.py` `Product` model) and the document store's execution of the
query filter are modelled from the specification, as marked.
-/

deriving instance DecidableEq for Except

/-- A raw document stored in the `product` collection.  Every field may be
absent, mirroring a schemaless document store.  The `_id` is the store's
opaque identifier, kept in its canonical (lowercase hexadecimal) string
form. -/
structure Doc where
  _id : Option String := none
  name : Option String := none
  description : Option String := none
  price : Option Rat := none
  category : Option String := none
  location : Option String := none
  image : Option String := none
  in_stock : Option Bool := none
deriving DecidableEq, Repr

/-- The response model `ProductOut` of `src/main.py` (lines 66-77). -/
structure ProductOut where
  id : String
  name : String
  description : Option String := none
  price : Rat
  category : String
  location : Option String := none
  image : Option String := none
  in_stock : Bool := true
deriving DecidableEq, Repr

/-- Modelled from the spec: the `Product` payload model of `schemas.py`
(missing from `src/`), following the data-model table of the spec —
`name`, `price`, `category` required (category defaulting to the empty
string), `description` / `location` / `image` optional, `in_stock`
defaulting to true. -/
structure Product where
  name : String
  description : Option String := none
  price : Rat
  category : String := ""
  location : Option String := none
  image : Option String := none
  in_stock : Bool := true
deriving DecidableEq, Repr

/-- ASCII lower-casing of one character (the case-insensitivity of the
store's `$options: "i"` regex flag and of Python's `str.lower`). -/
def lcChar (c : Char) : Char :=
  if 'A' ≤ c && c ≤ 'Z' then Char.ofNat (c.toNat + 32) else c

/-- A string as its list of lower-cased characters. -/
def lcList (s : String) : List Char := s.toList.map lcChar

/-- Lower-casing of a whole string. -/
def lcString (s : String) : String := ⟨lcList s⟩

/-- Contiguous-sublist test: `listContains needle hay` is true when `needle`
occurs as a contiguous run inside `hay`. -/
def listContains (needle : List Char) : List Char → Bool
  | [] => needle.isEmpty
  | c :: rest => needle.isPrefixOf (c :: rest) || listContains needle rest

/-- Case-insensitive substring test: `ciSubstr needle hay` is true when
`needle` occurs, case-insensitively, as a contiguous substring of `hay`. -/
def ciSubstr (needle hay : String) : Bool :=
  listContains (lcList needle) (lcList hay)

/-- An optional document field satisfies a predicate only when present;
an absent field never matches a filter condition. -/
def optField (o : Option String) (f : String → Bool) : Bool :=
  match o with
  | some t => f t
  | none => false

/-- Modelled from the spec: the store's evaluation of the `$or` of the four
case-insensitive `$regex` conditions built by `list_products`
(`src/main.py` lines 92-97); per the spec, the term matches if it occurs
case-insensitively as a substring of any of name, description, category
or location. -/
def qMatchDoc (s : String) (d : Doc) : Bool :=
  optField d.name (fun t => ciSubstr s t) ||
  optField d.description (fun t => ciSubstr s t) ||
  optField d.category (fun t => ciSubstr s t) ||
  optField d.location (fun t => ciSubstr s t)

/-- Modelled from the spec: the store's evaluation of the anchored
case-insensitive `$regex` on `category` built by `list_products`
(`src/main.py` line 99); per the spec this is case-insensitive exact
comparison of the category field. -/
def catMatchDoc (c : String) (d : Doc) : Bool :=
  optField d.category (fun t => lcList t == lcList c)

/-- Modelled from the spec: the store's evaluation of the `price` range
filter built by `list_products` (`src/main.py` lines 100-106).  When at
least one bound is present, only documents carrying a numeric price
inside the bounds match. -/
def priceMatchDoc (mp xp : Option Rat) (d : Doc) : Bool :=
  match mp, xp with
  | none, none => true
  | _, _ =>
    match d.price with
    | none => false
    | some p =>
      (match mp with
       | some lo => decide (lo ≤ p)
       | none => true) &&
      (match xp with
       | some hi => decide (p ≤ hi)
       | none => true)

/-- The filter document built by `list_products` (`src/main.py`
lines 90-106), as a predicate on stored documents.  A parameter supplied
as the empty string is falsy in Python (`if q:` / `if category:`), so it
contributes no condition. -/
def buildFilter (q category : Option String) (mp xp : Option Rat) (d : Doc) : Bool :=
  (match q with
   | none => true
   | some s => if s = "" then true else qMatchDoc s d) &&
  (match category with
   | none => true
   | some c => if c = "" then true else catMatchDoc c d) &&
  priceMatchDoc mp xp d

/-- Modelled from the spec: `get_documents` of `database.py` (missing from
`src/`): the store executes the filter and returns the matching records,
in store order, capped at `limit`. -/
def get_documents (flt : Doc → Bool) (limit : Nat) (store : List Doc) : List Doc :=
  (store.filter flt).take limit

/-- The read-path projection of `src/main.py` (lines 110-121 and 134-143):
one raw document becomes one `ProductOut`, with defaults substituted for
absent fields. -/
def projectDoc (d : Doc) : ProductOut :=
  { id := match d._id with
      | some s => s
      | none => ""
    name := d.name.getD ""
    description := d.description
    price := d.price.getD 0
    category := d.category.getD ""
    location := d.location
    image := d.image
    in_stock := d.in_stock.getD true }

/-- The framework's declarative validation of the query parameters of
`list_products` (`src/main.py` lines 81-85): `min_price` and `max_price`
must be nonnegative when supplied, `limit` must lie in [1, 100] when
supplied.  Violations are rejected with a client-error signal before the
handler body runs. -/
def validParams (mp xp : Option Rat) (limit : Option Int) : Bool :=
  (match mp with
   | some m => decide (0 ≤ m)
   | none => true) &&
  (match xp with
   | some m => decide (0 ≤ m)
   | none => true) &&
  (match limit with
   | some l => decide (1 ≤ l) && decide (l ≤ 100)
   | none => true)

/-- The `GET /api/products` handler (`src/main.py` lines 79-122).
`dbConf` models whether the store handle `db` is configured; `limit`
defaults to 40 when omitted.  Invalid parameters fail with 422 before the
handler body (and hence before any storage query); an unconfigured store
fails with 500. -/
def list_products (dbConf : Bool) (q category : Option String) (mp xp : Option Rat)
    (limit : Option Int) (store : List Doc) : Except Nat (List ProductOut) :=
  if validParams mp xp limit = false then .error 422
  else if dbConf = false then .error 500
  else .ok ((get_documents (buildFilter q category mp xp) (limit.getD 40).toNat store).map projectDoc)

/-- Modelled from the spec: a hexadecimal digit, for the syntactic form of
the store's native identifiers. -/
def isHexChar (c : Char) : Bool :=
  c.isDigit || ('a' ≤ c && c ≤ 'f') || ('A' ≤ c && c ≤ 'F')

/-- Modelled from the spec: a syntactically valid store identifier string
(a bson `ObjectId`): exactly 24 hexadecimal characters. -/
def isValidObjectId (s : String) : Bool :=
  s.length == 24 && s.toList.all isHexChar

/-- Modelled from the spec: `ObjectId(product_id)` — resolving an opaque id
string to the store's native identifier form (canonically lowercase);
returns `none` (an exception in the source) when the string is not
syntactically valid. -/
def parseObjectId (s : String) : Option String :=
  if isValidObjectId s then some (lcString s) else none

/-- The point lookup `find_one({"_id": oid})` on the `product` collection
(`src/main.py` line 129): first stored document with that identifier. -/
def find_one_by_id (store : List Doc) (oid : String) : Option Doc :=
  store.find? (fun d => d._id == some oid)

/-- The `GET /api/products/{product_id}` handler (`src/main.py`
lines 124-143).  `storeFails` models the store query itself raising; the
handler's `try/except` turns any exception — malformed id or store
failure — into 400, a missing record into 404. -/
def get_product (dbConf storeFails : Bool) (pid : String) (store : List Doc) :
    Except Nat ProductOut :=
  if dbConf = false then .error 500
  else
    match parseObjectId pid with
    | none => .error 400
    | some oid =>
      if storeFails then .error 400
      else
        match find_one_by_id store oid with
        | none => .error 404
        | some d => .ok (projectDoc d)

/-- Modelled from the spec: the write path of `database.py`'s
`create_document` (missing from `src/`): the payload is inserted as a new
document carrying the given store-assigned identifier, absent optional
fields stored absent, and the new identifier is returned as a string. -/
def docOfProduct (p : Product) (oid : Option String) : Doc :=
  { _id := oid
    name := some p.name
    description := p.description
    price := some p.price
    category := some p.category
    location := p.location
    image := p.image
    in_stock := some p.in_stock }

/-- Modelled from the spec: `create_document` of `database.py` appends the
new document to the collection and returns the new id string.  The
store-assigned identifier is passed in explicitly (`oid`), making the
store's nondeterministic id generation a parameter. -/
def create_document (p : Product) (oid : String) (store : List Doc) :
    String × List Doc :=
  (oid, store ++ [docOfProduct p (some oid)])

/-- The `POST /api/products` handler (`src/main.py` lines 145-153).
`storeFails` models the insert raising, which the handler turns into
400; an unconfigured store gives 500. -/
def create_product (dbConf storeFails : Bool) (p : Product) (oid : String)
    (store : List Doc) : Except Nat (String × List Doc) :=
  if dbConf = false then .error 500
  else if storeFails then .error 400
  else .ok (create_document p oid store)

/-- The hardcoded sample payloads `SAMPLE_PRODUCTS` of `src/main.py`
(lines 157-200). -/
def SAMPLE_PRODUCTS : List Product :=
  [ { name := "Block-Printed Dupatta"
      location := some "Jaipur, Rajasthan"
      price := 1599
      image := some "https://images.unsplash.com/photo-1685976045770-0562879cff98?ixid=M3w3OTkxMTl8MHwxfHNlYXJjaHwxfHxCbG9jay1QcmludGVkJTIwRHVwYXR0YXxlbnwwfDB8fHwxNzYzNTU5NTY1fDA&ixlib=rb-4.1.0&w=1600&auto=format&fit=crop&q=80"
      category := "Textiles" },
    { name := "Terracotta Vase"
      location := some "Kutch, Gujarat"
      price := 1299
      image := some "https://images.unsplash.com/photo-1523419409543-a3215c7beed5?q=80&w=1200&auto=format&fit=crop"
      category := "Ceramics" },
    { name := "Bamboo Basket"
      location := some "Assam"
      price := 899
      image := some "https://images.unsplash.com/photo-1519710164239-da123dc03ef4?q=80&w=1200&auto=format&fit=crop"
      category := "Home" },
    { name := "Warli Art Canvas"
      location := some "Maharashtra"
      price := 2199
      image := some "https://images.unsplash.com/photo-1580136579312-94651dfd596d?q=80&w=1200&auto=format&fit=crop"
      category := "Art" },
    { name := "Blue Pottery Bowl"
      location := some "Jaipur, Rajasthan"
      price := 749
      image := some "https://images.unsplash.com/photo-1616046229478-9901c5536a45?q=80&w=1200&auto=format&fit=crop"
      category := "Ceramics" },
    { name := "Phulkari Shawl"
      location := some "Punjab"
      price := 1899
      image := some "https://images.unsplash.com/photo-1685976045770-0562879cff98?ixid=M3w3OTkxMTl8MHwxfHNlYXJjaHwxfHxCbG9jay1QcmludGVkJTIwRHVwYXR0YXxlbnwwfDB8fHwxNzYzNTU5NTY1fDA&ixlib=rb-4.1.0&w=1600&auto=format&fit=crop&q=80"
      category := "Textiles" } ]

/-- The dedup lookup of the seeding loop, `find_one({"name": p["name"]})`
(`src/main.py` line 209): is some stored document named `n`? -/
def hasName (store : List Doc) (n : String) : Bool :=
  store.any (fun d => d.name == some n)

/-- The seeding loop of `seed_products` (`src/main.py` lines 206-212) over
an arbitrary sample list: each payload is inserted unless a document with
the same name already exists; the accumulator carries the count of
insertions so far and the store.  `gen k` is the store-assigned id of the
k-th inserted document. -/
def seedFold (samples : List Product) (gen : Nat → String) :
    Nat × List Doc → Nat × List Doc
  | acc =>
    match samples with
    | [] => acc
    | p :: rest =>
      if hasName acc.2 p.name then seedFold rest gen acc
      else seedFold rest gen (acc.1 + 1, acc.2 ++ [docOfProduct p (some (gen acc.1))])

/-- The `POST /api/seed` handler (`src/main.py` lines 202-213): inserts the
sample payloads, skipping names already present, and returns the number
of newly inserted documents together with the updated store. -/
def seed_products (dbConf : Bool) (gen : Nat → String) (store : List Doc) :
    Except Nat (Nat × List Doc) :=
  if dbConf = false then .error 500
  else .ok (seedFold SAMPLE_PRODUCTS gen (0, store))

/-- The price-range condition in the claim's own words: the record carries a
price p with lo ≤ p ≤ hi. -/
def priceBetween (lo hi : Rat) (d : Doc) : Bool :=
  match d.price with
  | some p => decide (lo ≤ p) && decide (p ≤ hi)
  | none => false

/-- The lower-bound-only condition in the claim's own words: the record
carries a price p with lo ≤ p. -/
def priceAtLeast (lo : Rat) (d : Doc) : Bool :=
  match d.price with
  | some p => decide (lo ≤ p)
  | none => false

/-- The upper-bound-only condition in the claim's own words: the record
carries a price p with p ≤ hi. -/
def priceAtMost (hi : Rat) (d : Doc) : Bool :=
  match d.price with
  | some p => decide (p ≤ hi)
  | none => false

/-- C9: supplying `q` or `category` as the empty string adds no constraint on
that axis — the filtered search behaves exactly as if the parameter had
been omitted. -/
theorem c9_empty_string_like_absent (dbConf : Bool) (q c : Option String)
    (mp xp : Option Rat) (limit : Option Int) (store : List Doc) :
    list_products dbConf (some "") c mp xp limit store =
      list_products dbConf none c mp xp limit store ∧
    list_products dbConf q (some "") mp xp limit store =
      list_products dbConf q none mp xp limit store := by
  have hq : buildFilter (some "") c mp xp = buildFilter none c mp xp :=
    funext fun d => rfl
  have hc : buildFilter q (some "") mp xp = buildFilter q none mp xp :=
    funext fun d => rfl
  constructor
  · simp only [list_products, hq]
  · simp only [list_products, hc]

/-- C3: in the single-item lookup, a syntactically invalid id string fails
with 400, while a syntactically valid id matching no stored record fails
with 404 — two distinct signals. -/
theorem c3_lookup_error_signals (pid : String) (store : List Doc) :
    (parseObjectId pid = none → get_product true false pid store = .error 400) ∧
    (∀ oid, parseObjectId pid = some oid → find_one_by_id store oid = none →
      get_product true false pid store = .error 404) := by
  constructor
  · intro h
    simp [get_product, h]
  · intro oid h hf
    simp [get_product, h, hf]

/-- Witness for C3 at concrete inputs: the malformed id "not-an-id" gives
400, and a well-formed 24-hex-digit id on an empty store gives 404. -/
theorem c3_lookup_error_signals_witness :
    get_product true false "not-an-id" [] = .error 400 ∧
    get_product true false "0123456789abcdef01234567" [] = .error 404 :=
  ⟨(c3_lookup_error_signals "not-an-id" []).1 (by decide),
   (c3_lookup_error_signals "0123456789abcdef01234567" []).2
     "0123456789abcdef01234567" (by decide) rfl⟩

/-- C10: every exception inside the lookup handler's try-block — malformed
id or a failing store query — surfaces as 400; with the store handle
configured the endpoint only ever fails with 400 or 404, and 500 arises
exactly from the unconfigured-store check. -/
theorem c10_lookup_exception_routing (sf : Bool) (pid : String) (store : List Doc) :
    get_product false sf pid store = .error 500 ∧
    get_product true true pid store = .error 400 ∧
    (parseObjectId pid = none → get_product true sf pid store = .error 400) ∧
    (∀ r, get_product true sf pid store = .error r → r = 400 ∨ r = 404) := by
  refine ⟨rfl, ?_, ?_, ?_⟩
  · cases h : parseObjectId pid <;> simp [get_product, h]
  · intro h
    simp [get_product, h]
  · intro r hr
    cases h : parseObjectId pid with
    | none =>
      simp [get_product, h] at hr
      omega
    | some oid =>
      cases sf with
      | true =>
        simp [get_product, h] at hr
        omega
      | false =>
        cases hf : find_one_by_id store oid with
        | none =>
          simp [get_product, h, hf] at hr
          omega
        | some d =>
          simp [get_product, h, hf] at hr

/-- Witness for C10 at concrete inputs: a failing store query on a
well-formed id gives 400, and the error code emitted for a malformed id
is in {400, 404}. -/
theorem c10_lookup_exception_routing_witness :
    get_product true true "0123456789abcdef01234567" [] = .error 400 ∧
    ((400 : Nat) = 400 ∨ (400 : Nat) = 404) :=
  ⟨(c10_lookup_exception_routing true "0123456789abcdef01234567" []).2.1,
   (c10_lookup_exception_routing false "not-an-id" []).2.2.2 400 (by decide)⟩

/-- C5: the read path never fails and yields exactly one `ProductOut` per
raw record, with price coerced (default 0 when absent), in_stock coerced
(default true when absent), category defaulting to the empty string, and
the identifier propagated as a string. -/
theorem c5_projection_totality_defaults (store : List Doc)
    (hlen : store.length ≤ 40) :
    list_products true none none none none none store = .ok (store.map projectDoc) ∧
    ∀ d ∈ store,
      (projectDoc d).price = d.price.getD 0 ∧
      (projectDoc d).in_stock = d.in_stock.getD true ∧
      (projectDoc d).category = d.category.getD "" ∧
      (d._id = none → (projectDoc d).id = "") ∧
      (∀ s, d._id = some s → (projectDoc d).id = s) := by
  constructor
  · have hf : buildFilter none none none none = fun _ => true := funext fun d => rfl
    have hfilter : store.filter (fun _ => true) = store :=
      List.filter_eq_self.mpr (fun a _ => rfl)
    have hstep : list_products true none none none none none store =
        .ok (((store.filter (buildFilter none none none none)).take 40).map projectDoc) := rfl
    rw [hstep, hf, hfilter, List.take_of_length_le hlen]
  · intro d _
    refine ⟨rfl, rfl, rfl, ?_, ?_⟩
    · intro h
      simp [projectDoc, h]
    · intro s h
      simp [projectDoc, h]

/-- Witness for C5 at a concrete two-record store, one record fully absent
on the optional fields. -/
theorem c5_projection_totality_defaults_witness :
    list_products true none none none none none
      [{}, { _id := some "0123456789abcdef01234567", name := some "Bamboo Basket",
             price := some 899, in_stock := some false }] =
      .ok (List.map projectDoc
        [{}, { _id := some "0123456789abcdef01234567", name := some "Bamboo Basket",
               price := some 899, in_stock := some false }]) :=
  (c5_projection_totality_defaults _ (by decide)).1

/-- C7: invalid numeric parameters are rejected with a client-error signal
before any storage query (even with the store handle unconfigured):
negative price bounds, limit 0 and limit 101 all give 422; limit 100 is
accepted and caps the result list at 100; an omitted limit behaves as 40. -/
theorem c7_parameter_validation (q c : Option String) (store : List Doc) (m x : Rat) :
    (m < 0 → list_products true q c (some m) none none store = .error 422) ∧
    (x < 0 → list_products true q c none (some x) none store = .error 422) ∧
    list_products true q c none none (some 0) store = .error 422 ∧
    list_products true q c none none (some 101) store = .error 422 ∧
    (∃ out, list_products true q c none none (some 100) store = .ok out ∧
      out.length ≤ 100) ∧
    list_products true q c none none none store =
      list_products true q c none none (some 40) store ∧
    list_products false q c none none (some 0) store = .error 422 := by
  refine ⟨?_, ?_, rfl, rfl, ?_, rfl, rfl⟩
  · intro hm
    have hv : validParams (some m) none none = false := by
      simp [validParams]
      exact hm
    simp [list_products, hv]
  · intro hx
    have hv : validParams none (some x) none = false := by
      simp [validParams]
      exact hx
    simp [list_products, hv]
  · refine ⟨_, rfl, ?_⟩
    simp only [get_documents, List.length_map]
    calc ((store.filter (buildFilter q c none none)).take ((100 : Int).toNat)).length
        ≤ (100 : Int).toNat := by
          rw [List.length_take]
          exact min_le_left _ _
      _ = 100 := rfl

/-- Witness for C7 at concrete inputs: both negative-bound rejections at
the bound -1. -/
theorem c7_parameter_validation_witness :
    list_products true none none (some (-1)) none none [] = .error 422 ∧
    list_products true none none none (some (-1)) none [] = .error 422 :=
  ⟨(c7_parameter_validation none none [] (-1) (-1)).1 (by norm_num),
   (c7_parameter_validation none none [] (-1) (-1)).2.1 (by norm_num)⟩

/-- C1 counterexample: with the search term supplied as the empty string — a
provided term — a stored record carrying none of the four searchable
fields still appears in the results, although the term occurs as a
substring of none of that record's name, description, category or
location fields.  (The handler's Python truthiness test `if q:` treats
the empty string like an absent parameter.) -/
theorem c1_counterexample :
    ¬ (list_products true (some "") none none none (some 40) [{}] =
        .ok (([({} : Doc)].filter (fun d => qMatchDoc "" d)).map projectDoc)) := by
  decide

/-- C1 amended: for every provided nonempty search term q, and whenever the
matching records fit within the result limit, the filtered search returns
exactly the records in which q occurs case-insensitively as a substring
of at least one of name, description, category or location. -/
theorem c1_search_substring_or (q : String) (limit : Int) (store : List Doc)
    (hq : q ≠ "") (hl1 : 1 ≤ limit) (hl2 : limit ≤ 100)
    (hcap : store.length ≤ limit.toNat) :
    list_products true (some q) none none none (some limit) store =
      .ok ((store.filter (fun d => qMatchDoc q d)).map projectDoc) := by
  have hv : validParams none none (some limit) = true := by
    simp [validParams]
    exact ⟨hl1, hl2⟩
  have hstep : list_products true (some q) none none none (some limit) store =
      .ok (((store.filter (buildFilter (some q) none none none)).take limit.toNat).map
        projectDoc) := by
    simp [list_products, hv, get_documents]
  have hf : buildFilter (some q) none none none = fun d => qMatchDoc q d := by
    funext d
    simp [buildFilter, hq, priceMatchDoc]
  rw [hstep, hf, List.take_of_length_le (le_trans (List.length_filter_le _ _) hcap)]

/-- Witness for the amended C1 at a concrete store: the term "vase" returns
exactly the record whose name contains it case-insensitively. -/
theorem c1_search_substring_or_witness :
    list_products true (some "vase") none none none (some 40)
      [{ name := some "Terracotta Vase", category := some "Ceramics", price := some 1299 },
       { name := some "Bamboo Basket", category := some "Home", price := some 899 }] =
      .ok ((([{ name := some "Terracotta Vase", category := some "Ceramics",
                price := some 1299 },
              { name := some "Bamboo Basket", category := some "Home",
                price := some 899 }] : List Doc).filter
        (fun d => qMatchDoc "vase" d)).map projectDoc) :=
  c1_search_substring_or "vase" 40 _ (by decide) (by decide) (by decide) (by decide)

/-- C2 counterexample: with the category supplied as the empty string — a
provided category value — a stored record whose category is "Ceramics",
which does not equal "" under case-insensitive comparison, still appears
in the results.  (The handler's Python truthiness test `if category:`
treats the empty string like an absent parameter.) -/
theorem c2_counterexample :
    ¬ (list_products true none (some "") none none (some 40)
          [{ category := some "Ceramics" }] =
        .ok (([({ category := some "Ceramics" } : Doc)].filter
          (fun d => catMatchDoc "" d)).map projectDoc)) := by
  decide

/-- C2 amended: for every provided nonempty category string c, and whenever
the matching records fit within the result limit, the filtered search
returns exactly the records whose category field equals c under
case-insensitive exact comparison — in particular a record whose category
merely contains c as a proper substring does not match. -/
theorem c2_category_exact (c : String) (limit : Int) (store : List Doc)
    (hc : c ≠ "") (hl1 : 1 ≤ limit) (hl2 : limit ≤ 100)
    (hcap : store.length ≤ limit.toNat) :
    list_products true none (some c) none none (some limit) store =
      .ok ((store.filter (fun d => catMatchDoc c d)).map projectDoc) := by
  have hv : validParams none none (some limit) = true := by
    simp [validParams]
    exact ⟨hl1, hl2⟩
  have hstep : list_products true none (some c) none none (some limit) store =
      .ok (((store.filter (buildFilter none (some c) none none)).take limit.toNat).map
        projectDoc) := by
    simp [list_products, hv, get_documents]
  have hf : buildFilter none (some c) none none = fun d => catMatchDoc c d := by
    funext d
    simp [buildFilter, hc, priceMatchDoc]
  rw [hstep, hf, List.take_of_length_le (le_trans (List.length_filter_le _ _) hcap)]

/-- Witness for the amended C2 at a concrete store: the lowercase category
"ceramics" matches the stored category "Ceramics" exactly and
case-insensitively, and the category "Home" — of which "me" would be a
mere substring — is untouched. -/
theorem c2_category_exact_witness :
    list_products true none (some "ceramics") none none (some 40)
      [{ name := some "Terracotta Vase", category := some "Ceramics", price := some 1299 },
       { name := some "Bamboo Basket", category := some "Home", price := some 899 }] =
      .ok ((([{ name := some "Terracotta Vase", category := some "Ceramics",
                price := some 1299 },
              { name := some "Bamboo Basket", category := some "Home",
                price := some 899 }] : List Doc).filter
        (fun d => catMatchDoc "ceramics" d)).map projectDoc) :=
  c2_category_exact "ceramics" 40 _ (by decide) (by decide) (by decide) (by decide)

/-- C6: with valid bounds, filtering by both price bounds returns exactly the
records whose price p satisfies lo ≤ p ≤ hi; a lower bound alone keeps
exactly the records with price at least lo, and an upper bound alone
exactly those with price at most hi — whenever the matches fit within the
result limit. -/
theorem c6_price_bounds (lo hi : Rat) (limit : Int) (store : List Doc)
    (hlo : 0 ≤ lo) (hhi : 0 ≤ hi) (hlh : lo ≤ hi)
    (hl1 : 1 ≤ limit) (hl2 : limit ≤ 100) (hcap : store.length ≤ limit.toNat) :
    list_products true none none (some lo) (some hi) (some limit) store =
      .ok ((store.filter (priceBetween lo hi)).map projectDoc) ∧
    list_products true none none (some lo) none (some limit) store =
      .ok ((store.filter (priceAtLeast lo)).map projectDoc) ∧
    list_products true none none none (some hi) (some limit) store =
      .ok ((store.filter (priceAtMost hi)).map projectDoc) := by
  refine ⟨?_, ?_, ?_⟩
  · have hv : validParams (some lo) (some hi) (some limit) = true := by
      simp [validParams]
      exact ⟨⟨hlo, hhi⟩, hl1, hl2⟩
    have hstep : list_products true none none (some lo) (some hi) (some limit) store =
        .ok (((store.filter (buildFilter none none (some lo) (some hi))).take
          limit.toNat).map projectDoc) := by
      simp [list_products, hv, get_documents]
    have hf : buildFilter none none (some lo) (some hi) = priceBetween lo hi := by
      funext d
      cases hp : d.price <;> simp [buildFilter, priceMatchDoc, priceBetween, hp]
    rw [hstep, hf, List.take_of_length_le (le_trans (List.length_filter_le _ _) hcap)]
  · have hv : validParams (some lo) none (some limit) = true := by
      simp [validParams]
      exact ⟨hlo, hl1, hl2⟩
    have hstep : list_products true none none (some lo) none (some limit) store =
        .ok (((store.filter (buildFilter none none (some lo) none)).take
          limit.toNat).map projectDoc) := by
      simp [list_products, hv, get_documents]
    have hf : buildFilter none none (some lo) none = priceAtLeast lo := by
      funext d
      cases hp : d.price <;> simp [buildFilter, priceMatchDoc, priceAtLeast, hp]
    rw [hstep, hf, List.take_of_length_le (le_trans (List.length_filter_le _ _) hcap)]
  · have hv : validParams none (some hi) (some limit) = true := by
      simp [validParams]
      exact ⟨hhi, hl1, hl2⟩
    have hstep : list_products true none none none (some hi) (some limit) store =
        .ok (((store.filter (buildFilter none none none (some hi))).take
          limit.toNat).map projectDoc) := by
      simp [list_products, hv, get_documents]
    have hf : buildFilter none none none (some hi) = priceAtMost hi := by
      funext d
      cases hp : d.price <;> simp [buildFilter, priceMatchDoc, priceAtMost, hp]
    rw [hstep, hf, List.take_of_length_le (le_trans (List.length_filter_le _ _) hcap)]

/-- Witness for C6 at the concrete range [800, 1500] over a three-record
store: only the record priced 1299 lies in the range, the lower bound
alone keeps prices 1299 and 2199, the upper bound alone keeps 1299 and
899. -/
theorem c6_price_bounds_witness :
    list_products true none none (some 800) (some 1500) (some 40)
      [{ name := some "Terracotta Vase", price := some 1299 },
       { name := some "Bamboo Basket", price := some 899 },
       { name := some "Warli Art Canvas", price := some 2199 }] =
      .ok ((([{ name := some "Terracotta Vase", price := some 1299 },
              { name := some "Bamboo Basket", price := some 899 },
              { name := some "Warli Art Canvas", price := some 2199 }] :
              List Doc).filter (priceBetween 800 1500)).map projectDoc) :=
  (c6_price_bounds 800 1500 40 _ (by decide) (by decide) (by decide) (by decide)
    (by decide) (by decide)).1

/-- Helper: a document none of whose store entries carries the identifier is
not found by the point lookup. -/
theorem find_one_by_id_eq_none (store : List Doc) (oid : String)
    (h : ∀ d ∈ store, d._id ≠ some oid) : find_one_by_id store oid = none :=
  List.find?_eq_none.mpr fun d hd => by
    simp only [beq_iff_eq]
    exact h d hd

/-- C8: creating a valid payload returns a nonempty server-assigned id, and
a subsequent lookup by that id returns the payload field-by-field, with
the server-assigned id and the defaulted optional fields filled in. -/
theorem c8_create_then_get_round_trip (p : Product) (oid : String) (store : List Doc)
    (hid : parseObjectId oid = some oid)
    (hfresh : ∀ d ∈ store, d._id ≠ some oid) :
    oid ≠ "" ∧
    create_product true false p oid store =
      .ok (oid, store ++ [docOfProduct p (some oid)]) ∧
    get_product true false oid (store ++ [docOfProduct p (some oid)]) =
      .ok { id := oid, name := p.name, description := p.description, price := p.price,
            category := p.category, location := p.location, image := p.image,
            in_stock := p.in_stock } := by
  refine ⟨?_, rfl, ?_⟩
  · intro h
    rw [h] at hid
    exact absurd hid (by decide)
  · have hfind : find_one_by_id (store ++ [docOfProduct p (some oid)]) oid =
        some (docOfProduct p (some oid)) := by
      have hnone : List.find? (fun d => d._id == some oid) store = none :=
        find_one_by_id_eq_none store oid hfresh
      unfold find_one_by_id
      rw [List.find?_append, hnone]
      simp [docOfProduct, List.find?]
    have h1 : get_product true false oid (store ++ [docOfProduct p (some oid)]) =
        match find_one_by_id (store ++ [docOfProduct p (some oid)]) oid with
        | none => .error 404
        | some d => .ok (projectDoc d) := by
      simp [get_product, hid]
    rw [h1, hfind]
    rfl

/-- Witness for C8: the spec's scenario — creating the payload
{name Terracotta Vase, price 1299, category Ceramics} on an empty store
and fetching it back by the returned id yields price 1299, in_stock true,
description absent. -/
theorem c8_create_then_get_round_trip_witness :
    "0123456789abcdef01234567" ≠ "" ∧
    create_product true false
        { name := "Terracotta Vase", price := 1299, category := "Ceramics" }
        "0123456789abcdef01234567" [] =
      .ok ("0123456789abcdef01234567",
        [] ++ [docOfProduct
          { name := "Terracotta Vase", price := 1299, category := "Ceramics" }
          (some "0123456789abcdef01234567")]) ∧
    get_product true false "0123456789abcdef01234567"
        ([] ++ [docOfProduct
          { name := "Terracotta Vase", price := 1299, category := "Ceramics" }
          (some "0123456789abcdef01234567")]) =
      .ok { id := "0123456789abcdef01234567", name := "Terracotta Vase",
            description := none, price := 1299, category := "Ceramics",
            location := none, image := none, in_stock := true } :=
  c8_create_then_get_round_trip
    { name := "Terracotta Vase", price := 1299, category := "Ceramics" }
    "0123456789abcdef01234567" [] (by decide) (by simp)

/-- Helper: each step of the seeding loop grows the store by exactly one
document per counted insertion. -/
theorem seedFold_length (samples : List Product) (gen : Nat → String) :
    ∀ acc : Nat × List Doc,
      (seedFold samples gen acc).2.length + acc.1 =
        acc.2.length + (seedFold samples gen acc).1 := by
  induction samples with
  | nil => intro acc; rfl
  | cons p rest ih =>
    intro acc
    simp only [seedFold]
    by_cases h : hasName acc.2 p.name = true
    · simp only [h, if_pos]
      exact ih acc
    · simp only [h, if_neg, Bool.not_eq_true]
      have := ih (acc.1 + 1, acc.2 ++ [docOfProduct p (some (gen acc.1))])
      simp only [List.length_append, List.length_cons, List.length_nil] at this
      omega

/-- Helper: a name present in the store stays present through the seeding
loop (documents are only appended, never removed). -/
theorem seedFold_hasName_mono (samples : List Product) (gen : Nat → String) :
    ∀ (acc : Nat × List Doc) (n : String), hasName acc.2 n = true →
      hasName (seedFold samples gen acc).2 n = true := by
  induction samples with
  | nil => intro acc n h; exact h
  | cons p rest ih =>
    intro acc n h
    simp only [seedFold]
    by_cases hx : hasName acc.2 p.name = true
    · simp only [hx, if_pos]
      exact ih acc n h
    · simp only [hx, if_neg, Bool.not_eq_true]
      refine ih _ n ?_
      simp only [hasName, List.any_append] at h ⊢
      simp [h]

/-- Helper: after the seeding loop, every sample's name is present in the
store — either it was already there, or its document was appended. -/
theorem seedFold_names_present (samples : List Product) (gen : Nat → String) :
    ∀ (acc : Nat × List Doc) (p : Product), p ∈ samples →
      hasName (seedFold samples gen acc).2 p.name = true := by
  induction samples with
  | nil =>
    intro acc p hp
    simp at hp
  | cons q rest ih =>
    intro acc p hp
    simp only [seedFold]
    rcases List.mem_cons.mp hp with h | h
    · subst h
      by_cases hx : hasName acc.2 p.name = true
      · simp only [hx, if_pos]
        exact seedFold_hasName_mono rest gen acc p.name hx
      · simp only [hx, if_neg, Bool.not_eq_true]
        refine seedFold_hasName_mono rest gen _ p.name ?_
        simp [hasName, List.any_append, docOfProduct]
    · by_cases hx : hasName acc.2 q.name = true
      · simp only [hx, if_pos]
        exact ih acc p h
      · simp only [hx, if_neg, Bool.not_eq_true]
        exact ih _ p h

/-- Helper: when every sample's name is already in the store, the seeding
loop inserts nothing and leaves the accumulator unchanged. -/
theorem seedFold_noop (samples : List Product) (gen : Nat → String) :
    ∀ acc : Nat × List Doc, (∀ p ∈ samples, hasName acc.2 p.name = true) →
      seedFold samples gen acc = acc := by
  induction samples with
  | nil => intro acc _; rfl
  | cons q rest ih =>
    intro acc h
    have hq : hasName acc.2 q.name = true := h q (by simp)
    simp only [seedFold, hq, if_pos]
    exact ih acc fun p hp => h p (by simp [hp])

/-- C4: the seed utility inserts a sample only when no record with the same
name exists and returns the count of new insertions — the store grows by
exactly that count — and a second invocation inserts nothing and leaves
the store (hence the total record count) unchanged, whatever ids the
store assigns in either run. -/
theorem c4_seed_idempotent_by_name (gen gen2 : Nat → String) (store : List Doc) :
    seed_products true gen store = .ok (seedFold SAMPLE_PRODUCTS gen (0, store)) ∧
    (seedFold SAMPLE_PRODUCTS gen (0, store)).2.length =
      store.length + (seedFold SAMPLE_PRODUCTS gen (0, store)).1 ∧
    seed_products true gen2 (seedFold SAMPLE_PRODUCTS gen (0, store)).2 =
      .ok (0, (seedFold SAMPLE_PRODUCTS gen (0, store)).2) := by
  refine ⟨rfl, ?_, ?_⟩
  · simpa using seedFold_length SAMPLE_PRODUCTS gen (0, store)
  · have hpresent : ∀ p ∈ SAMPLE_PRODUCTS,
        hasName (seedFold SAMPLE_PRODUCTS gen (0, store)).2 p.name = true :=
      fun p hp => seedFold_names_present SAMPLE_PRODUCTS gen (0, store) p hp
    have hnoop := seedFold_noop SAMPLE_PRODUCTS gen2
      (0, (seedFold SAMPLE_PRODUCTS gen (0, store)).2) (fun p hp => hpresent p hp)
    simp only [seed_products]
    rw [hnoop]
    rfl
